import Mathlib

/-!
Shallow embedding of the muxado session core (session.go) and verification of
its specification claims.

The embedding models the session state machine: stream-id allocation and
parity, the reader dispatch over typed frames, the incoming-SYN path, the
GOAWAY handler, the idle-id check of getStream, and the at-most-once shutdown
of die/Close/Wait.  Machine integers (uint32 fields of halfState) are modelled
as Nat with explicit reduction mod 2^32 where the Go code can overflow.
Concurrency-dependent inputs (whether the accept-channel send wins the 5ms
race, whether the writer reports an error) are explicit parameters.
-/

namespace Muxado

/-- Error codes of the muxado wire protocol used by the session core. -/
inductive ErrorCode where
  | NoError
  | ProtocolError
  | InternalError
  | StreamClosed
  | StreamRefused
  | AcceptQueueFull
deriving DecidableEq, Repr

/-- Errors surfaced by the session core to its callers: the terminal
sentinels and the two error classes it constructs with newErr. -/
inductive MuxErr where
  | remoteGoneAway
  | streamsExhausted
  | sessionClosed
  | writeTimeout
  | protoErr
  | internalErr
deriving DecidableEq, Repr

/-- One half of the session (struct halfState in session.go): whether that
half has gone away and the last stream id used or seen from it. -/
structure halfState where
  goneAway : Bool
  lastId : Nat
deriving DecidableEq, Repr

/-- The session state visible to the claims (struct session in session.go).
The stream table is the list of stream ids currently in the map; the
transport, framer and channels are modelled by the explicit parameters of the
operations that touch them. -/
structure session where
  isClientSession : Bool
  localHalf : halfState
  remoteHalf : halfState
  streams : List Nat
  dieOnce : Bool
  dieErr : Option MuxErr
  deadClosed : Bool
  transportClosed : Bool
  remoteError : Option (ErrorCode × List Nat)
  remoteDebug : List Nat
deriving DecidableEq, Repr

/-- Client stream ids are odd (session.isClient in session.go). -/
def isClientId (id : Nat) : Bool := id % 2 == 1

/-- Parity check for a stream id being local to this session (the isLocal
field, bound to isClient or isServer by newSession). -/
def isLocal (s : session) (id : Nat) : Bool :=
  if s.isClientSession then isClientId id else !(isClientId id)

/-- Construction of a session (newSession in session.go): all fields start
zeroed, then the client half gets lastId += 1 (local.lastId on the client
role, remote.lastId on the server role). -/
def newSession (isClient : Bool) : session :=
  { isClientSession := isClient
    localHalf := { goneAway := false, lastId := if isClient then 1 else 0 }
    remoteHalf := { goneAway := false, lastId := if isClient then 0 else 1 }
    streams := []
    dieOnce := false
    dieErr := none
    deadClosed := false
    transportClosed := false
    remoteError := none
    remoteDebug := [] }

/-- The half of the session owned by the client endpoint, regardless of which
role this session plays. -/
def clientHalf (s : session) : halfState :=
  if s.isClientSession then s.localHalf else s.remoteHalf

/-- The half of the session owned by the server endpoint, regardless of which
role this session plays. -/
def serverHalf (s : session) : halfState :=
  if s.isClientSession then s.remoteHalf else s.localHalf

/-- Shutdown (die in session.go).  The dieOnce compare-and-swap guards the
body: a loser returns sessionClosed and changes nothing.  The winner sends a
best-effort GOAWAY (whose only state effect is setting local.goneAway, via
GoAway), stores dieErr, closes dead, closes the transport, and notifies every
stream in the table (closeWith does not remove streams from the map). -/
def die (s : session) (err : Option MuxErr) : session × Option MuxErr :=
  if s.dieOnce then (s, some MuxErr.sessionClosed)
  else
    ({ s with
        dieOnce := true
        localHalf := { s.localHalf with goneAway := true }
        dieErr := err
        deadClosed := true
        transportClosed := true }, none)

/-- Public Close (session.go): die with a nil error. -/
def Close (s : session) : session × Option MuxErr := die s none

/-- The observable steps of die, in the order the source performs them. -/
inductive dieStep where
  | casDieOnce
  | sendGoAway
  | storeDieErr
  | closeDead
  | closeTransport
  | notifyStreams
deriving DecidableEq, Repr

/-- The sequence of steps die executes: a loser of the compare-and-swap only
performs the check; the winner performs the full shutdown sequence in source
order. -/
def dieTrace (s : session) : List dieStep :=
  if s.dieOnce then [dieStep.casDieOnce]
  else [dieStep.casDieOnce, dieStep.sendGoAway, dieStep.storeDieErr,
        dieStep.closeDead, dieStep.closeTransport, dieStep.notifyStreams]

/-- Wait (session.go) blocks on the dead channel and then returns the triple
(dieErr, remoteError, remoteDebug); in the embedding it returns none while
dead is not closed. -/
def Wait (s : session) :
    Option (Option MuxErr × Option (ErrorCode × List Nat) × List Nat) :=
  if s.deadClosed then some (s.dieErr, s.remoteError, s.remoteDebug) else none

/-- Frames dispatched by the reader (frame package).  A DATA frame carries its
stream id, the SYN and FIN flags, and the length of its payload, which the
codec exposes lazily: the payload bytes stay on the transport until someone
reads them through the frame's Reader. -/
inductive Frame where
  | data (sid : Nat) (syn fin : Bool) (payloadLen : Nat)
  | rst (sid : Nat) (code : ErrorCode)
  | wndinc (sid : Nat) (inc : Nat)
  | goaway (lastStreamId : Nat) (code : ErrorCode) (debug : List Nat)
  | unknown
deriving DecidableEq, Repr

/-- Modelled from the spec: the stream handle (stream.go is not under src).
Delivering a DATA frame to an existing stream handle via handleStreamData
consumes the frame's payload from the codec (spec invariant I6) and, in this
model, succeeds.  The result is (payload consumed, error). -/
def handleStreamData (_sid : Nat) (_payloadLen : Nat) : Bool × Option MuxErr :=
  (true, none)

/-- The last id seen for the parity of a given stream id (the pointer chosen
at the top of getStream in session.go). -/
def getStreamLastId (s : session) (id : Nat) : Nat :=
  if isLocal s id then s.localHalf.lastId else s.remoteHalf.lastId

/-- Lookup of an inbound frame's target (getStream in session.go): if the id
is greater than the last id seen for its parity the session is killed with a
ProtocolError (note the source does not return early there), then the stream
map is consulted. -/
def getStream (s : session) (id : Nat) : session × Option Nat :=
  let s1 := if getStreamLastId s id < id then (die s (some MuxErr.protoErr)).1 else s
  if s.streams.contains id then (s1, some id) else (s1, none)

/-- The outcome of handleSyn: the updated session, the fatal error returned
to the reader (if any), the asynchronously enqueued RST (if any), the id of
the stream created and inserted into the table (if any), whether the frame
was handed to handleStreamData, and whether the frame's payload was consumed
from the codec. -/
structure synResult where
  state : session
  err : Option MuxErr
  asyncRst : Option (Nat × ErrorCode)
  created : Option Nat
  delivered : Bool
  consumed : Bool
deriving DecidableEq, Repr

/-- Handling of a DATA frame with the SYN flag (handleSyn in session.go).
The acceptOk parameter models whether the send on the accept channel wins
against the 5ms timeout.  On the local-gone-away path the source packs and
asynchronously sends a StreamRefused RST and returns nil without touching the
frame's payload. -/
def handleSyn (s : session) (sid : Nat) (acceptOk : Bool) : synResult :=
  if s.localHalf.goneAway then
    { state := s, err := none, asyncRst := some (sid, ErrorCode.StreamRefused)
      created := none, delivered := false, consumed := false }
  else if sid < s.remoteHalf.lastId then
    { state := s, err := some MuxErr.protoErr, asyncRst := none
      created := none, delivered := false, consumed := false }
  else if isLocal s sid then
    { state := s, err := some MuxErr.protoErr, asyncRst := none
      created := none, delivered := false, consumed := false }
  else
    let s1 := { s with
                  remoteHalf := { s.remoteHalf with lastId := sid }
                  streams := sid :: s.streams }
    if acceptOk then
      { state := s1, err := none, asyncRst := none, created := some sid
        delivered := true, consumed := (handleStreamData sid 0).1 }
    else
      { state := s1, err := none
        asyncRst := some (sid, ErrorCode.AcceptQueueFull), created := some sid
        delivered := true, consumed := (handleStreamData sid 0).1 }

/-- GOAWAY handling (the frame.GoAway branch of handleFrame in session.go):
set remote.goneAway, record remoteDebug and remoteError from the frame, and
close with remoteGoneAway every stream in the table that is locally initiated
and has id strictly greater than the frame's last stream id.  Returns the
updated session and the list of ids so closed (closeWith does not remove them
from the table). -/
def handleGoAway (s : session) (lastStreamId : Nat) (code : ErrorCode)
    (debug : List Nat) : session × List Nat :=
  let closed := s.streams.filter (fun id => isLocal s id && decide (lastStreamId < id))
  ({ s with
      remoteHalf := { s.remoteHalf with goneAway := true }
      remoteDebug := debug
      remoteError := some (code, debug) }, closed)

/-- The outcome of the reader's per-frame dispatch. -/
structure frameResult where
  state : session
  err : Option MuxErr
  asyncRst : Option (Nat × ErrorCode)
  consumed : Bool
  delivered : Option Nat
  closedByGoAway : List Nat
deriving DecidableEq, Repr

/-- Per-frame dispatch (handleFrame in session.go).  A DATA frame with SYN
goes to handleSyn; a DATA frame without SYN goes through getStream and, when
the stream is absent, its payload is drained from the codec and a
StreamClosed RST is enqueued asynchronously; RST and WNDINC are delivered to
the stream when present and ignored otherwise; GOAWAY goes to the GOAWAY
handler; unknown frames are ignored. -/
def handleFrame (s : session) (f : Frame) (acceptOk : Bool) : frameResult :=
  match f with
  | Frame.data sid syn _fin len =>
    if syn then
      let r := handleSyn s sid acceptOk
      { state := r.state, err := r.err, asyncRst := r.asyncRst
        consumed := r.consumed
        delivered := if r.delivered then r.created else none
        closedByGoAway := [] }
    else
      let g := getStream s sid
      match g.2 with
      | none =>
        { state := g.1, err := none
          asyncRst := some (sid, ErrorCode.StreamClosed)
          consumed := true, delivered := none, closedByGoAway := [] }
      | some str =>
        { state := g.1, err := (handleStreamData str len).2, asyncRst := none
          consumed := (handleStreamData str len).1, delivered := some str
          closedByGoAway := [] }
  | Frame.rst sid _ =>
    let g := getStream s sid
    { state := g.1, err := none, asyncRst := none, consumed := true
      delivered := g.2, closedByGoAway := [] }
  | Frame.wndinc sid _ =>
    let g := getStream s sid
    { state := g.1, err := none, asyncRst := none, consumed := true
      delivered := g.2, closedByGoAway := [] }
  | Frame.goaway last code debug =>
    let g := handleGoAway s last code debug
    { state := g.1, err := none, asyncRst := none, consumed := true
      delivered := none, closedByGoAway := g.2 }
  | Frame.unknown =>
    { state := s, err := none, asyncRst := none, consumed := true
      delivered := none, closedByGoAway := [] }

/-- One iteration of the reader loop (reader in session.go): dispatch the
frame and, if handleFrame returned an error, kill the session with it. -/
def readerStep (s : session) (f : Frame) (acceptOk : Bool) : session :=
  let r := handleFrame s f acceptOk
  match r.err with
  | some e => (die r.state (some e)).1
  | none => r.state

/-- Reduction of a Nat to the value of the corresponding Go uint32. -/
def u32 (n : Nat) : Nat := n % 2 ^ 32

/-- The observable steps of OpenStream that touch shared state, in source
order: acquiring and releasing newStreamMutex, the atomic id bump, the stream
map insert, packing the SYN frame, and the synchronous submit to the writer. -/
inductive openEvent where
  | lock
  | allocId
  | insertStream
  | packSyn
  | submitSyn
  | unlock
deriving DecidableEq, Repr

/-- The outcome of OpenStream: the updated session, the returned stream id on
success, the returned error on failure, and the trace of observable steps. -/
structure openResult where
  state : session
  ret : Option Nat
  err : Option MuxErr
  events : List openEvent
deriving DecidableEq, Repr

/-- OpenStream (session.go).  Fails with remoteGoneAway before touching any
state if the remote half is gone.  Otherwise it locks newStreamMutex, bumps
local.lastId by 2 (a uint32 add), and returns streamsExhausted if bit 31 of
the new id is set: note the source returns on that path without unlocking the
mutex.  Otherwise the stream is inserted into the table, an empty SYN DATA
frame is packed (packOk models the pack result) and submitted synchronously
to the writer (writeErr models the writer's completion result), and the
mutex is released after the submit returns. -/
def OpenStream (s : session) (packOk : Bool) (writeErr : Option MuxErr) :
    openResult :=
  if s.remoteHalf.goneAway then
    { state := s, ret := none, err := some MuxErr.remoteGoneAway, events := [] }
  else
    let nextId := u32 (s.localHalf.lastId + 2)
    let s1 := { s with localHalf := { s.localHalf with lastId := nextId } }
    if nextId.testBit 31 then
      { state := s1, ret := none, err := some MuxErr.streamsExhausted
        events := [openEvent.lock, openEvent.allocId] }
    else
      let s2 := { s1 with streams := nextId :: s1.streams }
      if packOk then
        match writeErr with
        | some e =>
          { state := s2, ret := none, err := some e
            events := [openEvent.lock, openEvent.allocId,
                       openEvent.insertStream, openEvent.packSyn,
                       openEvent.submitSyn, openEvent.unlock] }
        | none =>
          { state := s2, ret := some nextId, err := none
            events := [openEvent.lock, openEvent.allocId,
                       openEvent.insertStream, openEvent.packSyn,
                       openEvent.submitSyn, openEvent.unlock] }
      else
        { state := s2, ret := none, err := some MuxErr.internalErr
          events := [openEvent.lock, openEvent.allocId,
                     openEvent.insertStream, openEvent.packSyn,
                     openEvent.unlock] }

/-- A lock trace is balanced when it releases newStreamMutex as many times as
it acquires it. -/
def locksBalanced (evs : List openEvent) : Bool :=
  evs.count openEvent.lock == evs.count openEvent.unlock

/-- The session state of a server session whose local half has announced
shutdown, about to receive a SYN. -/
def goneAwayServer : session :=
  { newSession false with localHalf := { goneAway := true, lastId := 0 } }

/-- A client session whose local lastId sits just below the bit-31 boundary,
so that the next allocation sets bit 31. -/
def nearExhaustedClient : session :=
  { newSession true with localHalf := { goneAway := false, lastId := 2147483647 } }

/-- A uint32 increment by 2 preserves the parity of the counter. -/
theorem u32_add_two_parity (x : Nat) : u32 (x + 2) % 2 = x % 2 := by
  unfold u32
  rw [Nat.mod_mod_of_dvd _ (by norm_num : 2 ∣ 2 ^ 32)]
  omega

/-- A uint32 increment by 2 preserves the locality parity of a stream id. -/
theorem isLocal_u32_add_two (s : session) (x : Nat) :
    isLocal s (u32 (x + 2)) = isLocal s x := by
  unfold isLocal isClientId
  rw [u32_add_two_parity]

/-- C1 counterexample: on a fresh server session (remote.lastId seeded to 1)
an incoming SYN with stream id 1 is accepted and remote.lastId is updated,
yet 1 is not strictly greater than the previous remote.lastId, because the
source only rejects ids strictly below remote.lastId. -/
theorem C1_equal_id_accepted :
    (handleSyn (newSession false) 1 true).created = some 1
    ∧ (handleSyn (newSession false) 1 true).state.remoteHalf.lastId = 1
    ∧ ¬ (newSession false).remoteHalf.lastId < 1 := by decide

/-- C1 (amended): when the local half has not gone away, every SYN the
session accepts has remote parity and an id at least (not strictly greater
than) the previous remote.lastId, and remote.lastId is updated to it; any SYN
whose id is strictly below remote.lastId or has local parity is not accepted
and makes handleSyn return ProtocolError, which the reader turns into session
termination with that error. -/
theorem C1_syn_ordering_and_parity (s : session) (sid len : Nat)
    (aok fin : Bool) (hg : s.localHalf.goneAway = false)
    (halive : s.dieOnce = false) :
    ((handleSyn s sid aok).created.isSome →
        isLocal s sid = false
        ∧ s.remoteHalf.lastId ≤ sid
        ∧ (handleSyn s sid aok).created = some sid
        ∧ (handleSyn s sid aok).state.remoteHalf.lastId = sid)
    ∧ ((sid < s.remoteHalf.lastId ∨ isLocal s sid = true) →
        (handleSyn s sid aok).err = some MuxErr.protoErr
        ∧ (handleSyn s sid aok).created = none
        ∧ (readerStep s (Frame.data sid true fin len) aok).dieErr
            = some MuxErr.protoErr) := by
  constructor
  · intro hsome
    by_cases h1 : sid < s.remoteHalf.lastId
    · simp [handleSyn, hg, h1] at hsome
    · by_cases h2 : isLocal s sid = true
      · simp [handleSyn, hg, h1, h2] at hsome
      · refine ⟨by simpa using h2, Nat.le_of_not_lt h1, ?_, ?_⟩ <;>
          cases aok <;> simp [handleSyn, hg, h1, h2]
  · intro hviol
    rcases hviol with h1 | h2
    · simp [handleSyn, readerStep, handleFrame, hg, h1, die, halive]
    · by_cases h1 : sid < s.remoteHalf.lastId
      · simp [handleSyn, readerStep, handleFrame, hg, h1, die, halive]
      · simp [handleSyn, readerStep, handleFrame, hg, h1, h2, die, halive]

/-- C1 witness: a fresh server session accepts SYN 3 (remote parity, id at
least the previous remote.lastId of 1), and a SYN with id 0 (below
remote.lastId) terminates the session with ProtocolError. -/
theorem C1_syn_ordering_and_parity_witness :
    isLocal (newSession false) 3 = false
    ∧ (newSession false).remoteHalf.lastId ≤ 3
    ∧ (handleSyn (newSession false) 3 true).created = some 3
    ∧ (readerStep (newSession false) (Frame.data 0 true false 0) true).dieErr
        = some MuxErr.protoErr := by
  obtain ⟨hacc, -⟩ :=
    C1_syn_ordering_and_parity (newSession false) 3 0 true false (by decide) (by decide)
  obtain ⟨a, b, c, -⟩ := hacc (by decide)
  obtain ⟨-, hrej⟩ :=
    C1_syn_ordering_and_parity (newSession false) 0 0 true false (by decide) (by decide)
  obtain ⟨-, -, d⟩ := hrej (Or.inl (by decide))
  exact ⟨a, b, c, d⟩

/-- C2: a SYN refused because the local half has gone away is answered with a
StreamRefused RST and handleFrame returns no session-fatal error, yet the
frame's 10-byte payload is never consumed from the codec: the source's refuse
path returns without reading the frame body, contradicting the claim that the
payload of every DATA frame is fully consumed on every non-fatal return. -/
theorem C2_refused_syn_payload_unconsumed :
    (handleFrame goneAwayServer (Frame.data 1 true false 10) true).err = none
    ∧ (handleFrame goneAwayServer (Frame.data 1 true false 10) true).asyncRst
        = some (1, ErrorCode.StreamRefused)
    ∧ (handleFrame goneAwayServer (Frame.data 1 true false 10) true).consumed
        = false := by decide

/-- C3: the first call to Close performs the shutdown (dieOnce set, dead
closed) and returns nil; a Close on an already-dead session returns
sessionClosed unchanged; and after any Close, every further die call, with
any argument and from any caller, returns sessionClosed and leaves the state
untouched, so no shutdown step is repeated. -/
theorem C3_close_at_most_once (s : session) :
    (s.dieOnce = false →
        (Close s).2 = none
        ∧ (Close s).1.dieOnce = true
        ∧ (Close s).1.deadClosed = true)
    ∧ (s.dieOnce = true → Close s = (s, some MuxErr.sessionClosed))
    ∧ (∀ e, die (Close s).1 e = ((Close s).1, some MuxErr.sessionClosed)) := by
  cases hd : s.dieOnce <;> simp [Close, die, hd]

/-- C3 witness: on a fresh client session the first Close returns nil and a
second shutdown attempt returns sessionClosed without changing the state. -/
theorem C3_close_at_most_once_witness :
    (Close (newSession true)).2 = none
    ∧ die (Close (newSession true)).1 none
        = ((Close (newSession true)).1, some MuxErr.sessionClosed) := by
  obtain ⟨h1, -, h3⟩ := C3_close_at_most_once (newSession true)
  exact ⟨(h1 (by decide)).1, h3 none⟩

/-- C8 counterexample: on the client-role session the server half's lastId is
initialized to 0, not 2. -/
theorem C8_server_half_initial :
    (serverHalf (newSession true)).lastId = 0
    ∧ ¬ (serverHalf (newSession true)).lastId = 2 := by decide

/-- C8 (amended): at construction the client half's lastId is 1 on both the
client-role and the server-role session (so the first client-allocated stream
id is 3), while the server half's lastId is 0 on both (so the first
server-allocated stream id is 2). -/
theorem C8_initial_lastIds :
    (clientHalf (newSession true)).lastId = 1
    ∧ (clientHalf (newSession false)).lastId = 1
    ∧ (serverHalf (newSession true)).lastId = 0
    ∧ (serverHalf (newSession false)).lastId = 0
    ∧ (OpenStream (newSession true) true none).ret = some 3
    ∧ (OpenStream (newSession false) true none).ret = some 2 := by decide

/-- C9: inside die the winner stores dieErr strictly before closing the dead
channel; Wait yields a result only once dead is closed, and a Wait that
unblocks after die reads exactly the dieErr die stored. -/
theorem C9_dieErr_published_before_dead (s : session) (e : Option MuxErr)
    (h : s.dieOnce = false) :
    (dieTrace s).indexOf dieStep.storeDieErr
      < (dieTrace s).indexOf dieStep.closeDead
    ∧ (∀ t, Wait s = some t → s.deadClosed = true)
    ∧ Wait (die s e).1 = some (e, s.remoteError, s.remoteDebug) := by
  refine ⟨?_, ?_, ?_⟩
  · simp [dieTrace, h]
  · intro t ht
    cases hd : s.deadClosed
    · simp [Wait, hd] at ht
    · rfl
  · simp [Wait, die, h]

/-- C9 witness: on a fresh client session dying with a ProtocolError, the
trace orders the dieErr store before the dead close and Wait returns that
error together with the (empty) remote diagnostics. -/
theorem C9_dieErr_published_before_dead_witness :
    (dieTrace (newSession true)).indexOf dieStep.storeDieErr
      < (dieTrace (newSession true)).indexOf dieStep.closeDead
    ∧ Wait (die (newSession true) (some MuxErr.protoErr)).1
        = some (some MuxErr.protoErr, none, []) := by
  obtain ⟨h1, -, h3⟩ :=
    C9_dieErr_published_before_dead (newSession true) (some MuxErr.protoErr) (by decide)
  exact ⟨h1, h3⟩

/-- C4: OpenStream fails with remoteGoneAway, touching nothing, when the
remote half is gone; otherwise it allocates l = previous local.lastId + 2 (as
a uint32), which keeps the local parity, fails with streamsExhausted exactly
when bit 31 of l is set, and on success returns a stream with id l that was
inserted into the stream table before the SYN was submitted to the writer. -/
theorem C4_openStream_allocation (s : session) (packOk : Bool)
    (writeErr : Option MuxErr) (hpar : isLocal s s.localHalf.lastId = true)
    (hw : writeErr ≠ some MuxErr.streamsExhausted) :
    (s.remoteHalf.goneAway = true →
        OpenStream s packOk writeErr
          = { state := s, ret := none, err := some MuxErr.remoteGoneAway
              events := [] })
    ∧ (s.remoteHalf.goneAway = false →
        (OpenStream s packOk writeErr).state.localHalf.lastId
            = u32 (s.localHalf.lastId + 2)
        ∧ isLocal s (u32 (s.localHalf.lastId + 2)) = true
        ∧ ((OpenStream s packOk writeErr).err = some MuxErr.streamsExhausted
            ↔ (u32 (s.localHalf.lastId + 2)).testBit 31 = true)
        ∧ ((u32 (s.localHalf.lastId + 2)).testBit 31 = false → packOk = true →
            writeErr = none →
            (OpenStream s packOk writeErr).ret = some (u32 (s.localHalf.lastId + 2))
            ∧ u32 (s.localHalf.lastId + 2)
                ∈ (OpenStream s packOk writeErr).state.streams
            ∧ (OpenStream s packOk writeErr).events.indexOf openEvent.insertStream
                < (OpenStream s packOk writeErr).events.indexOf
                    openEvent.submitSyn)) := by
  constructor
  · intro hg
    simp [OpenStream, hg]
  · intro hg
    by_cases hb : (u32 (s.localHalf.lastId + 2)).testBit 31 = true
    · refine ⟨?_, ?_, ?_, ?_⟩
      · simp [OpenStream, hg, hb]
      · rw [isLocal_u32_add_two]
        exact hpar
      · simp [OpenStream, hg, hb]
      · intro hfalse
        rw [hb] at hfalse
        exact absurd hfalse (by decide)
    · have hb0 : (u32 (s.localHalf.lastId + 2)).testBit 31 = false :=
        Bool.eq_false_iff.mpr hb
      refine ⟨?_, ?_, ?_, ?_⟩
      · cases packOk <;> cases writeErr <;> simp [OpenStream, hg, hb0]
      · rw [isLocal_u32_add_two]
        exact hpar
      · cases packOk <;> rcases hwc : writeErr with - | e <;>
          simp [OpenStream, hg, hb0]
        intro he
        rw [hwc, he] at hw
        exact hw rfl
      · intro hbit hpk hwe
        subst hpk
        subst hwe
        refine ⟨by simp [OpenStream, hg, hb0], by simp [OpenStream, hg, hb0], ?_⟩
        simp [OpenStream, hg, hb0]

/-- C4 witness: a fresh client session opens its first stream with id 3,
which lands in the stream table. -/
theorem C4_openStream_allocation_witness :
    (OpenStream (newSession true) true none).ret = some 3
    ∧ 3 ∈ (OpenStream (newSession true) true none).state.streams := by
  obtain ⟨-, h⟩ :=
    C4_openStream_allocation (newSession true) true none (by decide) (by decide)
  obtain ⟨-, -, -, h4⟩ := h (by decide)
  obtain ⟨r1, r2, -⟩ := h4 (by decide) rfl rfl
  have h3 : u32 ((newSession true).localHalf.lastId + 2) = 3 := by decide
  rw [h3] at r1 r2
  exact ⟨r1, r2⟩

/-- C5: on a GOAWAY frame the session marks the remote half gone, records the
frame's error code and debug bytes in remoteError and remoteDebug, and closes
with remoteGoneAway exactly the locally-initiated streams in the table whose
id is strictly greater than the frame's lastStreamId. -/
theorem C5_goaway_closes_exactly_newer_local (s : session) (last : Nat)
    (c : ErrorCode) (d : List Nat) :
    (handleFrame s (Frame.goaway last c d) true).state.remoteHalf.goneAway = true
    ∧ (handleFrame s (Frame.goaway last c d) true).state.remoteError = some (c, d)
    ∧ (handleFrame s (Frame.goaway last c d) true).state.remoteDebug = d
    ∧ ∀ id, (id ∈ (handleFrame s (Frame.goaway last c d) true).closedByGoAway
          ↔ (id ∈ s.streams ∧ isLocal s id = true ∧ last < id)) := by
  refine ⟨rfl, rfl, rfl, fun id => ?_⟩
  simp [handleFrame, handleGoAway, List.mem_filter, and_assoc]

/-- C6: a non-SYN frame (DATA, RST or WNDINC) whose target id exceeds the
lastId recorded for its parity kills the session with ProtocolError; a DATA
frame whose id is within bounds but whose stream is absent from the table has
its payload drained, triggers an asynchronous StreamClosed RST, and is not
fatal (handleFrame returns no error). -/
theorem C6_idle_id_fatal_absent_data_benign (s : session) (sid len inc : Nat)
    (c : ErrorCode) (fin : Bool) (halive : s.dieOnce = false) :
    (getStreamLastId s sid < sid →
        (handleFrame s (Frame.data sid false fin len) true).state.dieErr
            = some MuxErr.protoErr
        ∧ (handleFrame s (Frame.rst sid c) true).state.dieErr
            = some MuxErr.protoErr
        ∧ (handleFrame s (Frame.wndinc sid inc) true).state.dieErr
            = some MuxErr.protoErr
        ∧ (handleFrame s (Frame.data sid false fin len) true).state.deadClosed
            = true)
    ∧ (sid ≤ getStreamLastId s sid → s.streams.contains sid = false →
        (handleFrame s (Frame.data sid false fin len) true).err = none
        ∧ (handleFrame s (Frame.data sid false fin len) true).asyncRst
            = some (sid, ErrorCode.StreamClosed)
        ∧ (handleFrame s (Frame.data sid false fin len) true).consumed = true) := by
  constructor
  · intro hlt
    by_cases hm : sid ∈ s.streams <;>
      simp [handleFrame, getStream, hlt, hm, die, halive, handleStreamData]
  · intro hle hc
    have hnlt : ¬ getStreamLastId s sid < sid := Nat.not_lt.mpr hle
    have hm : ¬ sid ∈ s.streams := by simpa using hc
    simp [handleFrame, getStream, hnlt, hm]

/-- C6 witness: on a fresh client session a DATA frame for the unassigned
local id 5 kills the session with ProtocolError, while a DATA frame for the
in-range absent id 1 is drained and answered with a StreamClosed RST. -/
theorem C6_idle_id_fatal_absent_data_benign_witness :
    (handleFrame (newSession true) (Frame.data 5 false false 4) true).state.dieErr
      = some MuxErr.protoErr
    ∧ (handleFrame (newSession true) (Frame.data 1 false false 4) true).asyncRst
      = some (1, ErrorCode.StreamClosed)
    ∧ (handleFrame (newSession true) (Frame.data 1 false false 4) true).consumed
      = true := by
  obtain ⟨h1, -⟩ :=
    C6_idle_id_fatal_absent_data_benign (newSession true) 5 4 0 ErrorCode.NoError
      false (by decide)
  obtain ⟨a, -, -, -⟩ := h1 (by decide)
  obtain ⟨-, h2⟩ :=
    C6_idle_id_fatal_absent_data_benign (newSession true) 1 4 0 ErrorCode.NoError
      false (by decide)
  obtain ⟨-, b, cons⟩ := h2 (by decide) (by decide)
  exact ⟨a, b, cons⟩

/-- C7: when the id allocated under newStreamMutex has bit 31 set, OpenStream
returns streamsExhausted after lock and allocation but without ever releasing
the mutex: the lock trace of that return path is unbalanced, contradicting
the claim that every return path releases the mutex. -/
theorem C7_streamsExhausted_leaks_mutex :
    (OpenStream nearExhaustedClient true none).err = some MuxErr.streamsExhausted
    ∧ (OpenStream nearExhaustedClient true none).events
        = [openEvent.lock, openEvent.allocId]
    ∧ locksBalanced (OpenStream nearExhaustedClient true none).events = false := by
  decide

/-- C10: a SYN that passes the goneAway, ordering and parity checks but whose
accept-queue offer times out is answered with an AcceptQueueFull RST, yet the
created stream stays in the stream table and the SYN frame is still handed to
the stream's handleStreamData, exactly as for an accepted stream, with no
session-fatal error. -/
theorem C10_accept_timeout_keeps_stream (s : session) (sid : Nat)
    (hg : s.localHalf.goneAway = false) (hord : s.remoteHalf.lastId ≤ sid)
    (hpar : isLocal s sid = false) :
    (handleSyn s sid false).err = none
    ∧ (handleSyn s sid false).asyncRst = some (sid, ErrorCode.AcceptQueueFull)
    ∧ (handleSyn s sid false).created = some sid
    ∧ sid ∈ (handleSyn s sid false).state.streams
    ∧ (handleSyn s sid false).delivered = true
    ∧ (handleSyn s sid false).consumed = true := by
  have hnlt : ¬ sid < s.remoteHalf.lastId := Nat.not_lt.mpr hord
  simp [handleSyn, hg, hnlt, hpar, handleStreamData]

/-- C10 witness: a fresh server session receiving SYN 3 with a full accept
queue answers AcceptQueueFull while keeping stream 3 in the table and
delivering the frame to it. -/
theorem C10_accept_timeout_keeps_stream_witness :
    (handleSyn (newSession false) 3 false).asyncRst
      = some (3, ErrorCode.AcceptQueueFull)
    ∧ 3 ∈ (handleSyn (newSession false) 3 false).state.streams
    ∧ (handleSyn (newSession false) 3 false).delivered = true := by
  obtain ⟨-, a, -, b, c, -⟩ :=
    C10_accept_timeout_keeps_stream (newSession false) 3 (by decide) (by decide)
      (by decide)
  exact ⟨a, b, c⟩

end Muxado
